import Mathlib

/-!
Verification of the genai-agent-orchestrator control plane.

Shallow embedding of the repository's Python source into Lean 4:
 - `src/policy/evaluator.py` and `src/policy/rules.py` (policy evaluator),
 - `src/agents/planner_agent.py` (keyword planner),
 - `src/orchestration/planner.py` and `src/enforcement/config.py`
   (policy-hint layer and canary gating),
 - `src/orchestration/executor.py` and `src/orchestration/state.py`
   (plan executor and simple orchestrate flow),
 - `src/observability/collector.py` (trace collector),
 - `src/agents/critic_agent.py` (critic validation).

Machine floats are modelled as exact rationals (all thresholds in the source
are small decimal literals whose order is preserved by IEEE doubles);
Python exceptions are modelled with `Except String`; Python dictionaries of
heterogeneous values are modelled with the `PyVal` type below.
-/

/-- A Python runtime value, as far as the evaluated code inspects one:
numbers (int/float, modelled exactly as rationals), booleans, strings,
`None`, and string-keyed dictionaries. -/
inductive PyVal where
  | num (q : ℚ)
  | pybool (b : Bool)
  | str (s : String)
  | pynone
  | dict (entries : List (String × PyVal))
deriving Repr

/-- `d.get(k)` on a Python dict: the first entry with key `k`, if any. -/
def dictGet (entries : List (String × PyVal)) (k : String) : Option PyVal :=
  match entries with
  | [] => none
  | (k', v) :: rest => if k' = k then some v else dictGet rest k

/-- `k in d` on a Python dict. -/
def dictHas (entries : List (String × PyVal)) (k : String) : Bool :=
  (dictGet entries k).isSome

/-- `d[k] = v` on a Python dict (replace or append). -/
def dictSet (entries : List (String × PyVal)) (k : String) (v : PyVal) :
    List (String × PyVal) :=
  match entries with
  | [] => [(k, v)]
  | (k', v') :: rest => if k' = k then (k, v) :: rest else (k', v') :: dictSet rest k v

/-- Numeric coercion used by Python's comparison operators: ints/floats
compare as numbers, `True`/`False` compare as `1`/`0`, anything else
raises `TypeError`. -/
def asNum (v : PyVal) : Except String ℚ :=
  match v with
  | .num q => .ok q
  | .pybool b => .ok (if b then 1 else 0)
  | _ => .error "TypeError: comparison not supported"

/-! ## Policy evaluator (`src/policy/evaluator.py`, `src/policy/rules.py`) -/

/-- `PolicyConfig` from `src/policy/rules.py`. -/
structure PolicyConfig where
  max_cost_usd : ℚ := 1 / 1000
  warn_cost_usd : ℚ := 1 / 2000
  min_evaluation_score : ℚ := 1 / 2
  warn_evaluation_score : ℚ := 3 / 5
  max_latency_ms : ℚ := 30000
  warn_latency_ms : ℚ := 10000
  require_valid_output : Bool := true
  enabled : Bool := true
  cost_policy_enabled : Bool := true
  score_policy_enabled : Bool := true
  latency_policy_enabled : Bool := true
  validation_policy_enabled : Bool := true
deriving Repr

/-- `DEFAULT_CONFIG` from `src/policy/rules.py`. -/
def DEFAULT_CONFIG : PolicyConfig := {}

/-- `PolicyResult` from `src/policy/evaluator.py`. -/
structure PolicyResult where
  status : String
  violations : List String := []
  warnings : List String := []
  checked_rules : ℕ := 0
  enabled : Bool := true
deriving Repr, DecidableEq

/-- Contribution of one policy rule family: violations, warnings, and how
many rules it counted; `.error` models a Python exception escaping the
check (e.g. a `TypeError` from comparing a string with a threshold). -/
abbrev StageOut := Except String (List String × List String × ℕ)

/-- Sequence two rule families the way the `try:` body of `evaluate_policy`
does: a raised exception aborts the whole body, losing the accumulated
lists. -/
def andStage (acc stage : StageOut) : StageOut :=
  match acc with
  | .error e => .error e
  | .ok (v, w, k) =>
    match stage with
    | .error e => .error e
    | .ok (v', w', k') => .ok (v ++ v', w ++ w', k + k')

/-- Cost check of `evaluate_policy` (lines 62-69): `metadata.get
("estimated_cost_usd", 0.0)` compared against the two thresholds. -/
def costStage (metadata : List (String × PyVal)) (config : PolicyConfig) : StageOut :=
  if config.cost_policy_enabled then
    match asNum ((dictGet metadata "estimated_cost_usd").getD (.num 0)) with
    | .error e => .error e
    | .ok cost =>
      if cost > config.max_cost_usd then .ok (["high_cost"], [], 1)
      else if cost > config.warn_cost_usd then .ok ([], ["elevated_cost"], 1)
      else .ok ([], [], 1)
  else .ok ([], [], 0)

/-- The numeric score the score check sees: `metadata.get("evaluation", {})`,
then `.get("score")` when that value is a dict, with a `None` score treated
like an absent one (`if score is not None`). -/
def scoreOf (metadata : List (String × PyVal)) : Option PyVal :=
  match dictGet metadata "evaluation" with
  | some (.dict d) =>
    match dictGet d "score" with
    | some .pynone => none
    | other => other
  | some _ => none
  | none => none

/-- Score check of `evaluate_policy` (lines 72-81): a missing or non-numeric
`evaluation` record yields no violation and no warning, but the rule is
still counted. -/
def scoreStage (metadata : List (String × PyVal)) (config : PolicyConfig) : StageOut :=
  if config.score_policy_enabled then
    match scoreOf metadata with
    | none => .ok ([], [], 1)
    | some v =>
      match asNum v with
      | .error e => .error e
      | .ok score =>
        if score < config.min_evaluation_score then .ok (["low_score"], [], 1)
        else if score < config.warn_evaluation_score then .ok ([], ["marginal_score"], 1)
        else .ok ([], [], 1)
  else .ok ([], [], 0)

/-- Latency check of `evaluate_policy` (lines 84-91). -/
def latencyStage (metadata : List (String × PyVal)) (config : PolicyConfig) : StageOut :=
  if config.latency_policy_enabled then
    match asNum ((dictGet metadata "latency_ms").getD (.num 0)) with
    | .error e => .error e
    | .ok latency =>
      if latency > config.max_latency_ms then .ok (["high_latency"], [], 1)
      else if latency > config.warn_latency_ms then .ok ([], ["elevated_latency"], 1)
      else .ok ([], [], 1)
  else .ok ([], [], 0)

/-- Validation check of `evaluate_policy` (lines 94-100): a violation exactly
when `validation.is_valid` is the literal `False`. -/
def validationStage (metadata : List (String × PyVal)) (config : PolicyConfig) : StageOut :=
  if config.validation_policy_enabled && config.require_valid_output then
    match dictGet metadata "validation" with
    | some (.dict d) =>
      match dictGet d "is_valid" with
      | some (.pybool false) => .ok (["invalid_output"], [], 1)
      | _ => .ok ([], [], 1)
    | some _ => .ok ([], [], 1)
    | none => .ok ([], [], 1)
  else .ok ([], [], 0)

/-- The `try:` body of `evaluate_policy`: the four rule families in source
order, aborted by the first fault. -/
def evalPolicyCore (metadata : List (String × PyVal)) (config : PolicyConfig) : StageOut :=
  andStage (andStage (andStage (costStage metadata config) (scoreStage metadata config))
    (latencyStage metadata config)) (validationStage metadata config)

/-- `evaluate_policy` from `src/policy/evaluator.py`: disabled config short
circuits to `pass`; otherwise any violation gives `fail`, else any warning
gives `warn`, else `pass`; an internal fault is caught and reported as
status `error` with a synthetic violation tag. Total: never raises. -/
def evaluate_policy (metadata : List (String × PyVal)) (config : PolicyConfig := DEFAULT_CONFIG) :
    PolicyResult :=
  if ¬config.enabled then { status := "pass", enabled := false, checked_rules := 0 }
  else
    match evalPolicyCore metadata config with
    | .ok (violations, warnings, checked) =>
      { status := if violations ≠ [] then "fail" else if warnings ≠ [] then "warn" else "pass"
        violations := violations
        warnings := warnings
        checked_rules := checked }
    | .error e =>
      { status := "error"
        violations := ["evaluation_error: " ++ e]
        checked_rules := 0 }

/-! ## Python string helpers -/

/-- The whitespace characters recognised by `str.strip()` / `str.split()`. -/
def pyIsSpace (c : Char) : Bool :=
  c = ' ' || c = '\t' || c = '\n' || c = '\r' || c = '\x0b' || c = '\x0c'

/-- `not prompt.strip()`: true exactly when the string has no
non-whitespace character (this also covers the empty string). -/
def pyBlank (s : String) : Bool :=
  s.toList.all pyIsSpace

/-- Whether the first list is an initial segment of the second. -/
def chPre : List Char → List Char → Bool
  | [], _ => true
  | _ :: _, [] => false
  | a :: as, b :: bs => a == b && chPre as bs

/-- Whether `needle` occurs as a contiguous run inside `hay`. -/
def chSub (needle : List Char) : List Char → Bool
  | [] => needle.isEmpty
  | b :: bs => chPre needle (b :: bs) || chSub needle bs

/-- Python's `needle in hay` on strings. -/
def pyIn (needle hay : String) : Bool :=
  chSub needle.toList hay.toList

/-- `str.lower()` (the keyword vocabularies are ASCII). Defined over the
character list so that it evaluates by structural reduction. -/
def pyLower (s : String) : String :=
  String.mk (s.data.map Char.toLower)

/-- `str.split()`: split on runs of whitespace, discarding empty pieces.
The accumulator carries the current word reversed. -/
def pyWordsAux : List Char → List Char → List String
  | [], cur => if cur.isEmpty then [] else [String.mk cur.reverse]
  | c :: rest, cur =>
    if pyIsSpace c then
      if cur.isEmpty then pyWordsAux rest [] else String.mk cur.reverse :: pyWordsAux rest []
    else pyWordsAux rest (c :: cur)

/-- The words of a string, Python `str.split()` style. -/
def pyWords (s : String) : List String :=
  pyWordsAux s.toList []

/-! ## Planner agent (`src/agents/planner_agent.py`) -/

/-- `PlannerDecision` from `src/agents/planner_agent.py`. -/
structure PlannerDecision where
  selected_agent : String
  reason : String
deriving Repr, DecidableEq

/-- The decision returned for empty/blank/non-string input, for the final
fall-through, and for any internal fault. -/
def defaultDecision : PlannerDecision :=
  { selected_agent := "general", reason := "Default routing for general queries" }

/-- The retrieval-indicating vocabulary (checked first). -/
def retrievalKeywords : List String :=
  ["search", "find", "lookup", "retrieve", "document"]

/-- The validation-indicating vocabulary (checked second). -/
def criticKeywords : List String :=
  ["validate", "verify", "check", "review", "critique"]

/-- `PlannerAgent.plan`. A `none` prompt models `None` or any non-string
input (both fail the `isinstance(prompt, str)` guard). The body has no
fallible operation, so the source's final `except` arm is dead; the
function is total, matching the contract that `plan` never raises. -/
def plannerPlan (prompt : Option String) : PlannerDecision :=
  match prompt with
  | none => defaultDecision
  | some s =>
    if pyBlank s then defaultDecision
    else
      let lower := pyLower s
      if retrievalKeywords.any (fun k => pyIn k lower) then
        { selected_agent := "retrieval", reason := "Contains retrieval-related keywords" }
      else if criticKeywords.any (fun k => pyIn k lower) then
        { selected_agent := "critic", reason := "Contains validation-related keywords" }
      else defaultDecision

/-! ## Policy-hint layer (`src/orchestration/planner.py`,
`src/enforcement/config.py`) -/

/-- The canary block of `EnforcementConfig.CANARY_ENFORCEMENT`. -/
structure CanaryConfig where
  enabled : Bool
  tier : String
  percentage : ℕ
deriving Repr, DecidableEq

/-- `EnforcementConfig`: global kill switch, per-rule allow-list, canary
parameters. -/
structure EnforcementCfg where
  enforcement_enabled : Bool
  enabled_rules : List String
  canary : CanaryConfig
deriving Repr, DecidableEq

/-- The values `EnforcementConfig` holds with default environment. -/
def defaultEnforcementCfg : EnforcementCfg :=
  { enforcement_enabled := true
    enabled_rules := ["cost_guard"]
    canary := { enabled := true, tier := "free", percentage := 5 } }

/-- `EnforcementConfig.is_enabled`. -/
def EnforcementCfg.ruleEnabled (cfg : EnforcementCfg) (rule_id : String) : Bool :=
  cfg.enforcement_enabled && cfg.enabled_rules.contains rule_id

/-- `PolicyEnforcement` from `src/orchestration/planner.py`. -/
structure PolicyEnforcement where
  type : String
  applied : Bool
  reason : String
deriving Repr, DecidableEq

/-- The `canary_meta` dict `{"eligible": ..., "sampled": ..., "tier": ...}`. -/
structure CanaryMeta where
  eligible : Bool
  sampled : Bool
  tier : String
deriving Repr, DecidableEq

/-- `EnrichedRoutingDecision` from `src/orchestration/planner.py`. -/
structure EnrichedRoutingDecision where
  selected_agent : String
  reason : String
  policy_hint : Option String := none
  policy_influenced : Bool := false
  enforcement : Option PolicyEnforcement := none
  enforcement_skipped : Bool := false
  canary : Option CanaryMeta := none
deriving Repr, DecidableEq

/-- The last policy snapshot a session carries (`PolicyResult.to_dict()`
as consumed by `_compute_policy_hints`): status plus named violation and
warning lists. -/
structure PolicySnapshot where
  status : String
  violations : List String
  warnings : List String
deriving Repr, DecidableEq

/-- The five local variables `_compute_policy_hints` returns. -/
structure HintBundle where
  hint : Option String := none
  influenced : Bool := false
  enforcement : Option PolicyEnforcement := none
  skipped : Bool := false
  canary : Option CanaryMeta := none
deriving Repr, DecidableEq

/-- `OrchestrationPlanner._compute_policy_hints`. `h` models
`int(hashlib.sha256(prompt.encode("utf-8")).hexdigest(), 16)`, an external
deterministic function of the prompt string. The caller's tier is the
hard-coded `"free"` of the source. -/
def computePolicyHints (h : String → ℕ) (cfg : EnforcementCfg)
    (policy_context : PolicySnapshot) (prompt : String) : HintBundle :=
  if policy_context.status = "fail" then
    if policy_context.violations.contains "high_cost" then
      { hint := some "cost_sensitive", influenced := true }
    else if policy_context.violations.contains "low_score" then
      { hint := some "quality_sensitive", influenced := true }
    else if policy_context.violations.contains "high_latency" then
      { hint := some "latency_sensitive", influenced := true }
    else
      { hint := some "review_recommended", influenced := true }
  else if policy_context.status = "warn" then
    if policy_context.warnings.contains "elevated_cost" then
      let base : HintBundle := { hint := some "prefer_cost_efficient", influenced := true }
      if cfg.ruleEnabled "cost_guard" then
        if cfg.canary.enabled then
          if "free" = cfg.canary.tier then
            let sampled := h prompt % 100 < cfg.canary.percentage
            let meta : CanaryMeta := { eligible := true, sampled := sampled, tier := "free" }
            if sampled then
              { base with
                canary := some meta
                enforcement := some
                  { type := "cost_guard", applied := true, reason := "policy_warn_high_cost" } }
            else
              { base with canary := some meta, skipped := true }
          else
            { base with skipped := true }
        else
          { base with
            enforcement := some
              { type := "cost_guard", applied := true, reason := "policy_warn_high_cost" } }
      else
        { base with skipped := true }
    else if policy_context.warnings.contains "marginal_score" then
      { hint := some "prefer_quality", influenced := true }
    else if policy_context.warnings.contains "elevated_latency" then
      { hint := some "prefer_fast", influenced := true }
    else {}
  else {}

/-- `OrchestrationPlanner.plan`. When policy influence is disabled or no
(truthy) policy context is given, the source's `return` reads the local
`canary_meta` that was never assigned, raising `UnboundLocalError`
(`planner.py` lines 109-126 initialise every other local but not
`canary_meta`); `Except.error` models that exception escaping `plan`. -/
def orchPlan (h : String → ℕ) (cfg : EnforcementCfg) (influence_enabled : Bool)
    (prompt : String) (policy_context : Option PolicySnapshot) :
    Except String EnrichedRoutingDecision :=
  let base := plannerPlan (some prompt)
  match influence_enabled, policy_context with
  | true, some ctx =>
    let b := computePolicyHints h cfg ctx prompt
    .ok
      { selected_agent := base.selected_agent
        reason := base.reason
        policy_hint := b.hint
        policy_influenced := b.influenced
        enforcement := b.enforcement
        enforcement_skipped := b.skipped
        canary := b.canary }
  | _, _ => .error "UnboundLocalError: canary_meta"

/-! ## Plan executor (`src/orchestration/executor.py`,
`src/orchestration/state.py`, `src/schemas/plan.py`) -/

/-- `StepStatus` from `src/orchestration/state.py`. -/
inductive StepStatus where
  | pending
  | running
  | completed
  | failed
  | skipped
deriving Repr, DecidableEq

/-- `PlanStep` from `src/schemas/plan.py` (the executor reads `step_id`,
`agent_role` and `intent`; `depends_on` is recorded but never used). -/
structure PlanStep where
  step_id : ℕ
  agent_role : String
  intent : String
  description : String := ""
  depends_on : List ℕ := []
deriving Repr, DecidableEq

/-- `ExecutionPlan` from `src/schemas/plan.py` (the wall-clock fields of
`execution_trace` are elided). -/
structure ExecutionPlan where
  plan_id : String
  task_type : String
  rationale : String
  steps : List PlanStep
  estimated_complexity : String := "unknown"
deriving Repr, DecidableEq

/-- `StepResult` from `src/orchestration/state.py`. The executor stores the
agent's `response.answer` (a string) in `output`; `duration_ms`, a
wall-clock measurement, is elided. -/
structure StepResult where
  step_id : ℕ
  agent_role : String
  status : StepStatus
  output : Option String := none
  error : Option String := none
  metadata : List (String × PyVal) := []
deriving Repr

/-- `ExecutionResult` from `src/orchestration/state.py` (the timestamped
`execution_trace` dict is elided). -/
structure ExecutionResult where
  plan_id : String
  status : StepStatus
  step_results : List StepResult
  final_output : Option String := none
deriving Repr

/-- `ServiceRequest` as the step executor consumes it: the query plus the
string-keyed context dict. -/
structure ServiceReq where
  query : String
  context : List (String × PyVal) := []
deriving Repr

/-- `ServiceResponse` as the step executor consumes it. -/
structure ServiceResp where
  answer : String
  metadata : List (String × PyVal) := []
deriving Repr

/-- The agent lookup of `_execute_step`: the `self.agents` map has exactly
the keys `retrieval`, `general`, `critic`, with the two ad hoc alias
fallbacks of lines 346-347. -/
def resolveAgent (role : String) : Option String :=
  if ["retrieval", "general", "critic"].contains role then some role
  else if role = "retrieval_agent" then some "retrieval"
  else if role = "general_agent" then some "general"
  else none

/-- Lines 366-368: each previous step's output is assigned into the copied
context under `step_<id>_output` (dict assignment, so an existing key is
overwritten; a failed step contributes Python `None`). -/
def enrichContext (base : List (String × PyVal)) (prev : List StepResult) :
    List (String × PyVal) :=
  prev.foldl (fun acc p =>
    dictSet acc ("step_" ++ toString p.step_id ++ "_output")
      (match p.output with
       | some s => PyVal.str s
       | none => PyVal.pynone)) base

/-- `OrchestrationExecutor._execute_step`. `run` models the awaited
`agent.execute(...)` call on the resolved agent: `.error` is an exception
it raises, which the source catches into a FAILED step result
(lines 389-397). An unresolved role yields the FAILED result of
lines 349-356. This function never raises. -/
def executeStep (run : String → ServiceReq → Except String ServiceResp)
    (context : ServiceReq) (step : PlanStep) (previous_results : List StepResult) :
    StepResult :=
  match resolveAgent step.agent_role with
  | none =>
    { step_id := step.step_id
      agent_role := step.agent_role
      status := .failed
      error := some ("No agent found for role: " ++ step.agent_role)
      metadata := [("intent", .str step.intent)] }
  | some agent =>
    match run agent { query := context.query,
                      context := enrichContext context.context previous_results } with
    | .ok response =>
      { step_id := step.step_id
        agent_role := step.agent_role
        status := .completed
        output := some response.answer
        metadata := response.metadata }
    | .error e =>
      { step_id := step.step_id
        agent_role := step.agent_role
        status := .failed
        error := some e }

/-- Outcome of the `for` loop inside `execute_plan`'s `try:` block: either
it finishes (with the accumulated results and whether a step failed), or
the loop body crashes, leaving the results accumulated so far. -/
inductive LoopOut where
  | done (acc : List StepResult) (failedFlag : Bool)
  | crashed (acc : List StepResult) (e : String)
deriving Repr

/-- The `for step in plan.steps:` loop of `execute_plan` (lines 302-311):
run each step with the accumulated results as `previous_results`, append
its result, and break on the first FAILED step. `stepRunner` returning
`.error` models a crash of the loop body itself. -/
def execLoop (stepRunner : ServiceReq → PlanStep → List StepResult → Except String StepResult)
    (context : ServiceReq) : List PlanStep → List StepResult → LoopOut
  | [], acc => .done acc false
  | step :: rest, acc =>
    match stepRunner context step acc with
    | .error e => .crashed acc e
    | .ok sr =>
      if sr.status = .failed then .done (acc ++ [sr]) true
      else execLoop stepRunner context rest (acc ++ [sr])

/-- Python `str(...)` of a step output (`str(results[-1].output)`). -/
def pyStrOfOutput : Option String → String
  | some s => s
  | none => "None"

/-- `OrchestrationExecutor.execute_plan`. The result type is
`Except String ExecutionResult` so that a re-raised exception would be
representable as `.error`; the source's `except Exception` (lines 321-324)
catches every crash of the loop and converts it into a returned
`ExecutionResult` with status FAILED and an `"Execution crashed: ..."`
final output, so this function in fact always returns `.ok`. On a clean
run the final output is the last completed step's output, or
`"No steps executed."` for an empty plan (lines 313-319); after a FAILED
step, `final_output` keeps its `None` initialisation. -/
def executePlanModel
    (stepRunner : ServiceReq → PlanStep → List StepResult → Except String StepResult)
    (plan : ExecutionPlan) (context : ServiceReq) : Except String ExecutionResult :=
  match execLoop stepRunner context plan.steps [] with
  | .crashed acc e =>
    .ok { plan_id := plan.plan_id
          status := .failed
          step_results := acc
          final_output := some ("Execution crashed: " ++ e) }
  | .done acc true =>
    .ok { plan_id := plan.plan_id
          status := .failed
          step_results := acc
          final_output := none }
  | .done acc false =>
    .ok { plan_id := plan.plan_id
          status := .completed
          step_results := acc
          final_output := some (match acc.getLast? with
            | some last => pyStrOfOutput last.output
            | none => "No steps executed.") }

/-- The step runner the source actually installs: `_execute_step`, which
never raises (every exception from the agent call is caught inside it). -/
def pureRunner (run : String → ServiceReq → Except String ServiceResp) :
    ServiceReq → PlanStep → List StepResult → Except String StepResult :=
  fun context step prev => .ok (executeStep run context step prev)

/-- `execute_plan` with the real `_execute_step` step runner. -/
def executePlanRun (run : String → ServiceReq → Except String ServiceResp)
    (plan : ExecutionPlan) (context : ServiceReq) : Except String ExecutionResult :=
  executePlanModel (pureRunner run) plan context

/-- A step result corresponds to the plan step it was produced from. -/
def stepMatches (sr : StepResult) (st : PlanStep) : Prop :=
  sr.step_id = st.step_id ∧ sr.agent_role = st.agent_role

/-! ## Simple orchestrate flow (`OrchestrationExecutor.orchestrate`) -/

/-- The result shape the `orchestrate` code manipulates duck-typed
(`agent_name`, `output`, `confidence`, `metadata` — the attributes it
reads and the keywords it passes). Note that the repository's actual
`AgentResult` pydantic model (src/schemas/result.py lines 48-58) declares
`agent`/`output`/`metadata` with `agent` required and has no `agent_name`
or `confidence` field, so constructing it with these keywords raises a
`ValidationError`; an `.ok` agent outcome below therefore models a
`run_agent` call that returned an object actually carrying these four
attributes. -/
structure ExecAgentResult where
  agent_name : String
  output : String
  confidence : ℚ
  metadata : List (String × PyVal) := []
deriving Repr

/-- Outcome of the timed agent invocation (lines 175-194): a normal result,
a wall-clock timeout, or an exception raised by the agent call. -/
inductive AgentOutcome where
  | ok (r : ExecAgentResult)
  | timeout
  | exc (e : String)

/-- The exception raised by the degraded-result constructions in
`orchestrate`'s timeout/exception handlers (executor.py lines 181-186 and
189-194): they call `AgentResult(agent_name=..., output=...,
confidence=..., metadata=...)`, but the `AgentResult` model
(src/schemas/result.py lines 48-58) requires the field `agent` and has no
`agent_name` or `confidence` fields, so the constructor itself raises a
pydantic `ValidationError` inside the handler. -/
def agentResultValidationError : String :=
  "ValidationError: 1 validation error for AgentResult: agent field required"

/-- What the validator returns, as `orchestrate` consumes it: the signed
confidence delta and the `model_dump()` stored under
`metadata["validation"]`. -/
structure ValidationOut where
  confidence_delta : ℚ
  dump : List (String × PyVal) := []

/-- `EnrichedRoutingDecision.to_metadata()`. -/
def decisionToMetadata (d : EnrichedRoutingDecision) : PyVal :=
  .dict ([("selected_agent", .str d.selected_agent),
          ("reason", .str d.reason),
          ("policy_hint", match d.policy_hint with
            | some s => .str s
            | none => .pynone),
          ("policy_influenced", .pybool d.policy_influenced),
          ("enforcement_skipped", .pybool d.enforcement_skipped),
          ("canary", match d.canary with
            | some c => .dict [("eligible", .pybool c.eligible),
                               ("sampled", .pybool c.sampled),
                               ("tier", .str c.tier)]
            | none => .pynone)] ++
    (match d.enforcement with
     | some e => [("policy_enforcement",
         .dict [("type", .str e.type), ("applied", .pybool e.applied),
                ("reason", .str e.reason)])]
     | none => []))

/-- The fallback decision `_safe_execute` substitutes when the planner
raises (line 153). -/
def plannerFallback : EnrichedRoutingDecision :=
  { selected_agent := "general", reason := "Fallback due to planner failure" }

/-- Clamp to `[0, 1]` (line 228). -/
def clamp01 (q : ℚ) : ℚ :=
  max 0 (min 1 q)

/-- `OrchestrationExecutor.orchestrate`, with the external effects as
oracle parameters in source order: the planner call (wrapped by
`_safe_execute`, so a failure degrades to the fallback decision), the
session-memory read (wrapped, degrades to `""`), the timed agent call,
the two memory writes (wrapped, outcome discarded), and the
analyze / validate / evaluate sub-calls — which are NOT wrapped: an
exception from any of them reaches the outer `except`, a failure trace
is emitted (trace capture itself never raises), and the exception is
re-raised (line 256), modelled as `.error`. On an agent timeout or agent
exception, the inner handlers (lines 179-194) attempt to build a
synthetic degraded result with the apologetic text, but that
`AgentResult(agent_name=..., confidence=..., ...)` construction itself
raises `agentResultValidationError` (see there), which escapes the inner
handler to the outer `except` and is re-raised — so those outcomes also
end in `.error`. -/
def orchestrateModel
    (planner : Except String EnrichedRoutingDecision)
    (memRead : Except String String)
    (agentOut : AgentOutcome)
    (memWriteUser memWriteAssistant : Except String Unit)
    (analyzeFlag : Bool) (analysis : Except String (List (String × PyVal)))
    (validateFlag : Bool) (validation : Except String ValidationOut)
    (evaluateFlag : Bool) (evaluation : Except String (List (String × PyVal))) :
    Except String (ExecAgentResult × EnrichedRoutingDecision) :=
  let decision := match planner with
    | .ok d => d
    | .error _ => plannerFallback
  let _ctx := match memRead with
    | .ok s => s
    | .error _ => ""
  match agentOut with
  | .timeout => .error agentResultValidationError
  | .exc _ => .error agentResultValidationError
  | .ok agentResult =>
  -- best-effort memory writes: outcome discarded by _safe_execute
  let _ := memWriteUser
  let _ := memWriteAssistant
  let result := { agentResult with
    metadata := dictSet agentResult.metadata "routing" (decisionToMetadata decision) }
  match analyzeFlag, analysis with
  | true, .error e => .error e
  | _, _ =>
    let result := match analyzeFlag, analysis with
      | true, .ok a => { result with metadata := dictSet result.metadata "analysis" (.dict a) }
      | _, _ => result
    match validateFlag, validation with
    | true, .error e => .error e
    | _, _ =>
      let result := match validateFlag, validation with
        | true, .ok v =>
          { result with
            metadata := dictSet result.metadata "validation" (.dict v.dump)
            confidence := clamp01 (result.confidence + v.confidence_delta) }
        | _, _ => result
      match evaluateFlag, evaluation with
      | true, .error e => .error e
      | _, _ =>
        let result := match evaluateFlag, evaluation with
          | true, .ok ev =>
            { result with metadata := dictSet result.metadata "evaluation" (.dict ev) }
          | _, _ => result
        .ok (result, decision)

/-! ## Trace collector (`src/observability/collector.py`) -/

/-- Which stages of `TraceCollector.capture` were reached. The cost,
policy and SLA annotation sub-calls (collector.py lines 25-57) each absorb
their own failures and degrade to neutral defaults, so they cannot affect
this control flow and are not tracked. -/
structure CaptureLog where
  emitAttempted : Bool
  emitOk : Bool
  saveAttempted : Bool
  auditAttempted : Bool
  publishAttempted : Bool
deriving Repr, DecidableEq

/-- `TraceCollector.capture`, with the four externally-visible stages as
oracles: the sink's `emit`, the evaluation store's `save`, the enforcement
audit, and the LLMOps publish. The whole body sits in one `try:` whose
handler logs and returns (lines 122-159), so `capture` itself never raises
(the `.error` side of the result type is unreachable). `_save_evaluation`
and `_publish_to_llmops` carry their own absorbing handlers, but
`self._sink.emit(trace)` and `_audit_enforcement` do not: an exception
from `emit` jumps straight to the outer handler, skipping the save, audit
and publish stages, and an exception from the audit skips the publish. -/
def captureModel (enabled : Bool)
    (emit save audit publish : Except String Unit) : Except String CaptureLog :=
  if ¬enabled then
    .ok { emitAttempted := false, emitOk := false, saveAttempted := false
          auditAttempted := false, publishAttempted := false }
  else
    match emit with
    | .error _ =>
      -- outer handler: print and return; save/audit/publish never run
      .ok { emitAttempted := true, emitOk := false, saveAttempted := false
            auditAttempted := false, publishAttempted := false }
    | .ok _ =>
      -- _save_evaluation absorbs its own failure, so `save`'s outcome
      -- cannot stop the audit
      let _ := save
      match audit with
      | .error _ =>
        .ok { emitAttempted := true, emitOk := true, saveAttempted := true
              auditAttempted := true, publishAttempted := false }
      | .ok _ =>
        -- _publish_to_llmops absorbs its own failure
        let _ := publish
        .ok { emitAttempted := true, emitOk := true, saveAttempted := true
              auditAttempted := true, publishAttempted := true }

/-! ## Critic (`src/agents/critic_agent.py`, `src/schemas/result.py`) -/

/-- `RiskLevel` from `src/schemas/result.py`. -/
inductive RiskLevel where
  | low
  | medium
  | high
deriving Repr, DecidableEq

/-- `Recommendation` from `src/schemas/result.py`. -/
inductive Recommendation where
  | proceed
  | warn
  | block
deriving Repr, DecidableEq

/-- `ValidatedClaim` from `src/schemas/result.py`. -/
structure ValidatedClaim where
  claim_text : String
  is_grounded : Bool
  confidence : ℚ := 0
  supporting_chunk_ids : List String := []
deriving Repr, DecidableEq

/-- `CriticResult` from `src/schemas/result.py`. -/
structure CriticResult where
  is_safe : Bool
  risk_level : RiskLevel
  issues : List String := []
  recommendation : Recommendation
  validated_claims : List ValidatedClaim := []
  grounding_score : ℚ := 0
  confidence_score : ℚ := 0
deriving Repr, DecidableEq

/-- The fixed stop-word set of `_check_grounding`. -/
def stopWords : Finset String :=
  (["the", "a", "an", "is", "are", "was", "were", "be", "been",
    "being", "have", "has", "had", "do", "does", "did", "will",
    "would", "could", "should", "may", "might", "must", "shall",
    "can", "need", "dare", "ought", "used", "to", "of", "in",
    "for", "on", "with", "at", "by", "from", "as", "into", "through",
    "during", "before", "after", "above", "below", "between",
    "under", "again", "further", "then", "once", "and", "but",
    "or", "nor", "so", "yet", "both", "either", "neither", "not",
    "only", "own", "same", "than", "too", "very", "just", "also"] : List String).toFinset

/-- Stand-in for Python's `"{:.2f}".format` on a score in `[0, 1]`:
two decimal digits, rounding half up rather than the double's half-even
(no claim depends on these digits). -/
def fmt2 (q : ℚ) : String :=
  let n : ℤ := ⌊q * 100 + 1 / 2⌋
  s!"{n / 100}.{n % 100 / 10}{n % 10}"

/-- `_check_metadata_completeness`: one issue per missing expected field,
in field order. -/
def checkMetadataCompleteness (metadata : List (String × PyVal)) : List String :=
  (["source", "timestamp"].filter (fun f => ¬dictHas metadata f)).map
    (fun f => "Missing metadata: " ++ f)

/-- `_compute_confidence`: grounding base, chunk boost, capped issue
penalty, clamped to `[0, 1]`. -/
def computeConfidence (grounding_score : ℚ) (num_chunks num_issues : ℕ) : ℚ :=
  let base := grounding_score * (6 / 10)
  let boost : ℚ := if num_chunks ≥ 3 then 2 / 10 else if num_chunks ≥ 1 then 1 / 10 else 0
  let penalty := min ((num_issues : ℚ) * (1 / 10)) (3 / 10)
  clamp01 (base + boost - penalty)

/-- The critical keywords of `_assess_risk`. -/
def criticalKeywords : List String :=
  ["no grounding", "no output", "no extractable"]

/-- The severe keywords of `_compute_recommendation`. -/
def severeKeywords : List String :=
  ["no grounding", "no output", "unsupported"]

/-- `_assess_risk`: ordered, first match wins, defaulting to MEDIUM. -/
def assessRisk (issues : List String) (grounding_score confidence_score : ℚ) : RiskLevel :=
  if issues.any (fun i => criticalKeywords.any (fun kw => pyIn kw (pyLower i))) then .high
  else if grounding_score < 1 / 5 then .high
  else if issues.length > 2 || grounding_score < 1 / 2 then .medium
  else if confidence_score ≥ 3 / 5 && issues.length ≤ 1 then .low
  else .medium

/-- `_compute_recommendation`: HIGH blocks; MEDIUM blocks on a severe
issue, else warns; LOW proceeds. -/
def computeRecommendation (risk_level : RiskLevel) (issues : List String) : Recommendation :=
  match risk_level with
  | .high => .block
  | .medium =>
    if issues.any (fun i => severeKeywords.any (fun kw => pyIn kw (pyLower i))) then .block
    else .warn
  | .low => .proceed

/-- `_check_grounding`. Chunks are modelled by their extracted text (the
source stringifies arbitrary chunk objects via the `text`/`content`/
`page_content` keys or `str()`); `_build_context_corpus` joins them with
spaces. Returns (grounding score, issues, validated claims). -/
def checkGrounding (proposed_output : String) (retrieved_chunks : List String) :
    ℚ × List String × List ValidatedClaim :=
  let output_text := pyLower proposed_output
  let context_corpus := String.intercalate " " retrieved_chunks
  if context_corpus = "" then
    (0, ["Retrieved chunks contain no extractable text"], [])
  else
    let output_keywords := (pyWords output_text).toFinset \ stopWords
    let context_keywords := (pyWords (pyLower context_corpus)).toFinset \ stopWords
    if output_keywords = ∅ then
      ((1 : ℚ) / 2, ["Output contains no substantive content to evaluate"], [])
    else
      let overlap := output_keywords ∩ context_keywords
      let grounding_score : ℚ := (overlap.card : ℚ) / (output_keywords.card : ℚ)
      let claim : ValidatedClaim :=
        { claim_text := if output_text.length > 200 then output_text.take 200 ++ "..."
                        else output_text
          is_grounded := grounding_score ≥ 3 / 10
          confidence := grounding_score
          supporting_chunk_ids := (List.range retrieved_chunks.length).map toString }
      let issues :=
        if grounding_score < 3 / 10 then
          ["Low grounding score (" ++ fmt2 grounding_score ++
            "): output may not be supported by context"]
        else if grounding_score < 1 / 2 then
          ["Moderate grounding score (" ++ fmt2 grounding_score ++
            "): some claims may be unsupported"]
        else []
      (grounding_score, issues, [claim])

/-- `CriticAgent.run_step` from the point where `retrieved_chunks`,
`proposed_output` and `metadata` have been extracted from the step input
and previous results (critic_agent.py lines 77-135): presence checks,
grounding (only when both chunks and output are truthy — a `none` output
models Python `None`, and the empty string is falsy), metadata
completeness, confidence, risk, recommendation, and the derived
`is_safe = (recommendation == PROCEED)`. -/
def runStepCore (retrieved_chunks : List String) (proposed_output : Option String)
    (metadata : List (String × PyVal)) : CriticResult :=
  let presenceIssues :=
    (if retrieved_chunks.isEmpty then ["No grounding context available"] else []) ++
    (if proposed_output = none then ["No output to evaluate"] else [])
  let grounded :=
    match proposed_output with
    | some s =>
      if ¬retrieved_chunks.isEmpty && s ≠ "" then checkGrounding s retrieved_chunks
      else (0, [], [])
    | none => (0, [], [])
  let grounding_score := grounded.1
  let issues := presenceIssues ++ grounded.2.1 ++ checkMetadataCompleteness metadata
  let confidence_score :=
    computeConfidence grounding_score retrieved_chunks.length issues.length
  let risk_level := assessRisk issues grounding_score confidence_score
  let recommendation := computeRecommendation risk_level issues
  { is_safe := recommendation = .proceed
    risk_level := risk_level
    issues := issues
    recommendation := recommendation
    validated_claims := grounded.2.2
    grounding_score := grounding_score
    confidence_score := confidence_score }

/-- Roles whose step output counts as retrieved chunks. -/
def retrievalRoles : List String := ["retrieval", "retrieval_agent"]

/-- Roles whose step output counts as the proposed answer. -/
def generalRoles : List String := ["general", "general_agent", "generator"]

/-- `CriticAgent.validate_from_execution`: extract chunks (each truthy
retrieval-step output, as produced by the plan executor, is a single text
chunk), the proposed output (the last generation-step output, falling back
to `final_output` when that is `None`), and the merged metadata; flag a
failed execution; then run the same grounding / confidence / risk /
recommendation pipeline, with `is_safe` again derived from the
recommendation. -/
def validateFromExecution (execution_result : ExecutionResult) : CriticResult :=
  let execIssues :=
    if execution_result.status = .failed then ["Execution failed"] else []
  let retrieved_chunks :=
    execution_result.step_results.foldl (fun acc sr =>
      if retrievalRoles.contains sr.agent_role then
        acc ++ (match sr.output with
          | some s => if s ≠ "" then [s] else []
          | none => [])
      else acc) []
  let genLast := (execution_result.step_results.filter
    (fun sr => generalRoles.contains sr.agent_role)).getLast?
  let proposed0 : Option String :=
    match genLast with
    | some sr => sr.output
    | none => none
  let proposed_output : Option String :=
    match proposed0 with
    | some s => some s
    | none => execution_result.final_output
  let metadata := execution_result.step_results.foldl
    (fun acc sr => acc ++ sr.metadata) []
  let presenceIssues :=
    (if retrieved_chunks.isEmpty then ["No grounding context available"] else []) ++
    (if proposed_output = none then ["No output to evaluate"] else [])
  let grounded :=
    match proposed_output with
    | some s =>
      if ¬retrieved_chunks.isEmpty && s ≠ "" then checkGrounding s retrieved_chunks
      else (0, [], [])
    | none => (0, [], [])
  let grounding_score := grounded.1
  let issues := execIssues ++ presenceIssues ++ grounded.2.1 ++ checkMetadataCompleteness metadata
  let confidence_score :=
    computeConfidence grounding_score retrieved_chunks.length issues.length
  let risk_level := assessRisk issues grounding_score confidence_score
  let recommendation := computeRecommendation risk_level issues
  { is_safe := recommendation = .proceed
    risk_level := risk_level
    issues := issues
    recommendation := recommendation
    validated_claims := grounded.2.2
    grounding_score := grounding_score
    confidence_score := confidence_score }

/-! # Theorems -/

/-! ## Policy evaluator -/

/-- Inversion for stage sequencing: a successful composite run means both
stages succeeded and the lists/counters concatenated. -/
theorem andStage_ok {a b : StageOut} {x : List String × List String × ℕ}
    (h : andStage a b = .ok x) :
    ∃ xa xb, a = .ok xa ∧ b = .ok xb ∧
      x = (xa.1 ++ xb.1, xa.2.1 ++ xb.2.1, xa.2.2 + xb.2.2) := by
  unfold andStage at h
  rcases a with e | ⟨v, w, k⟩
  · exact absurd h (by simp)
  · rcases b with e | ⟨v', w', k'⟩
    · exact absurd h (by simp)
    · refine ⟨(v, w, k), (v', w', k'), rfl, rfl, ?_⟩
      simpa using h.symm

/-- Case analysis of `evaluate_policy`: disabled short circuit, clean run,
or caught internal fault. -/
theorem evaluate_policy_cases (m : List (String × PyVal)) (c : PolicyConfig) :
    (c.enabled = false ∧ evaluate_policy m c =
        { status := "pass", violations := [], warnings := [],
          checked_rules := 0, enabled := false }) ∨
    (∃ v w k, c.enabled = true ∧ evalPolicyCore m c = .ok (v, w, k) ∧
      evaluate_policy m c =
        { status := if v ≠ [] then "fail" else if w ≠ [] then "warn" else "pass",
          violations := v, warnings := w, checked_rules := k, enabled := true }) ∨
    (∃ e, c.enabled = true ∧ evalPolicyCore m c = .error e ∧
      evaluate_policy m c =
        { status := "error", violations := ["evaluation_error: " ++ e], warnings := [],
          checked_rules := 0, enabled := true }) := by
  unfold evaluate_policy
  by_cases hen : c.enabled = true
  · rcases hcore : evalPolicyCore m c with e | ⟨v, w, k⟩
    · exact Or.inr (Or.inr ⟨e, hen, rfl, by simp [hen]⟩)
    · exact Or.inr (Or.inl ⟨v, w, k, hen, rfl, by simp [hen]⟩)
  · exact Or.inl ⟨by simpa using hen, by simp [hen]⟩

/-- The cost check can only emit its own tags, and counts one rule when
enabled. -/
theorem costStage_ok_shape {m : List (String × PyVal)} {c : PolicyConfig}
    {x : List String × List String × ℕ} (h : costStage m c = .ok x) :
    ¬"low_score" ∈ x.1 ∧ ¬"marginal_score" ∈ x.2.1 ∧
      x.2.2 = if c.cost_policy_enabled then 1 else 0 := by
  unfold costStage at h
  split at h
  · split at h
    · exact absurd h (by simp)
    · split_ifs at h <;> rw [Except.ok.injEq] at h <;> subst h <;> simp_all
  · rw [Except.ok.injEq] at h
    subst h
    simp_all

/-- With no numeric score in the metadata, the score check emits nothing
and still counts the rule. -/
theorem scoreStage_none {m : List (String × PyVal)} {c : PolicyConfig}
    (hsc : scoreOf m = none) (hen : c.score_policy_enabled = true) :
    scoreStage m c = .ok ([], [], 1) := by
  unfold scoreStage
  rw [hen, hsc]
  simp

/-- The latency check can only emit its own tags, and counts one rule when
enabled. -/
theorem latencyStage_ok_shape {m : List (String × PyVal)} {c : PolicyConfig}
    {x : List String × List String × ℕ} (h : latencyStage m c = .ok x) :
    ¬"low_score" ∈ x.1 ∧ ¬"marginal_score" ∈ x.2.1 ∧
      x.2.2 = if c.latency_policy_enabled then 1 else 0 := by
  unfold latencyStage at h
  split at h
  · split at h
    · exact absurd h (by simp)
    · split_ifs at h <;> rw [Except.ok.injEq] at h <;> subst h <;> simp_all
  · rw [Except.ok.injEq] at h
    subst h
    simp_all

/-- The validation check can only emit its own tag, and counts one rule
when fully enabled. -/
theorem validationStage_ok_shape {m : List (String × PyVal)} {c : PolicyConfig}
    {x : List String × List String × ℕ} (h : validationStage m c = .ok x) :
    ¬"low_score" ∈ x.1 ∧ ¬"marginal_score" ∈ x.2.1 ∧
      x.2.2 = if c.validation_policy_enabled && c.require_valid_output then 1 else 0 := by
  unfold validationStage at h
  split at h
  · rename_i hif
    split at h
    · split at h <;> rw [Except.ok.injEq] at h <;> subst h <;> simp_all
    · rw [Except.ok.injEq] at h
      subst h
      simp_all
    · rw [Except.ok.injEq] at h
      subst h
      simp_all
  · rename_i hif
    rw [Except.ok.injEq] at h
    subst h
    refine ⟨by simp, by simp, ?_⟩
    simp only [Bool.and_eq_true] at hif
    rw [if_neg]
    intro hcontra
    rw [Bool.and_eq_true] at hcontra
    exact hif hcontra

/-- C8. For every metadata snapshot and threshold configuration the
`PolicyResult` status is `fail` when the violations list is non-empty,
else `warn` when the warnings list is non-empty, else `pass`; the function
is total (never raises) and an internal comparison fault is caught and
reported as status `error` carrying a synthetic `evaluation_error:`
violation tag; and the spec's concrete example — cost 0.002 against
max 0.001 / warn 0.0005 (the defaults) — yields exactly
`violations = ["high_cost"]` and status `fail` with all four rules
counted. -/
theorem policy_status_classification :
    (∀ (metadata : List (String × PyVal)) (config : PolicyConfig),
      (evaluate_policy metadata config).status ≠ "error" →
      (evaluate_policy metadata config).status =
        (if (evaluate_policy metadata config).violations ≠ [] then "fail"
         else if (evaluate_policy metadata config).warnings ≠ [] then "warn"
         else "pass")) ∧
    (∀ (metadata : List (String × PyVal)) (config : PolicyConfig),
      (evaluate_policy metadata config).status = "error" →
      ∃ msg, (evaluate_policy metadata config).violations = ["evaluation_error: " ++ msg]) ∧
    evaluate_policy [("estimated_cost_usd", PyVal.num (2 / 1000))] DEFAULT_CONFIG =
      { status := "fail", violations := ["high_cost"], warnings := [],
        checked_rules := 4, enabled := true } := by
  refine ⟨?_, ?_, ?_⟩
  · intro metadata config hne
    rcases evaluate_policy_cases metadata config with ⟨_, hep⟩ | ⟨v, w, k, _, _, hep⟩ |
      ⟨e, _, _, hep⟩
    · rw [hep]
      simp
    · rw [hep]
    · rw [hep] at hne
      exact absurd rfl hne
  · intro metadata config herr
    rcases evaluate_policy_cases metadata config with ⟨_, hep⟩ | ⟨v, w, k, _, _, hep⟩ |
      ⟨e, _, _, hep⟩
    · rw [hep] at herr
      exact absurd herr (by simp)
    · rw [hep] at herr
      simp only [] at herr
      split_ifs at herr <;> simp_all
    · rw [hep]
      exact ⟨e, rfl⟩
  · have hcost : costStage [("estimated_cost_usd", PyVal.num (2 / 1000))] DEFAULT_CONFIG =
        .ok (["high_cost"], [], 1) := by
      unfold costStage
      rw [show dictGet [("estimated_cost_usd", PyVal.num (2 / 1000))] "estimated_cost_usd" =
        some (PyVal.num (2 / 1000)) from rfl]
      norm_num [asNum, DEFAULT_CONFIG]
    have hlat : latencyStage [("estimated_cost_usd", PyVal.num (2 / 1000))] DEFAULT_CONFIG =
        .ok ([], [], 1) := by
      unfold latencyStage
      rw [show dictGet [("estimated_cost_usd", PyVal.num (2 / 1000))] "latency_ms" =
        none from rfl]
      norm_num [asNum, DEFAULT_CONFIG]
    have hscore : scoreStage [("estimated_cost_usd", PyVal.num (2 / 1000))] DEFAULT_CONFIG =
        .ok ([], [], 1) := rfl
    have hval : validationStage [("estimated_cost_usd", PyVal.num (2 / 1000))] DEFAULT_CONFIG =
        .ok ([], [], 1) := rfl
    unfold evaluate_policy evalPolicyCore
    rw [hcost, hscore, hlat, hval]
    norm_num [andStage, DEFAULT_CONFIG]

/-- Witness for `policy_status_classification`: the classification applied
at an empty metadata snapshot with default config, whose status `pass` is
not `error`. -/
theorem policy_status_classification_witness :
    (evaluate_policy [] DEFAULT_CONFIG).status ≠ "error" ∧
    (evaluate_policy [] DEFAULT_CONFIG).status =
      (if (evaluate_policy [] DEFAULT_CONFIG).violations ≠ [] then "fail"
       else if (evaluate_policy [] DEFAULT_CONFIG).warnings ≠ [] then "warn"
       else "pass") := by
  have hne : (evaluate_policy [] DEFAULT_CONFIG).status ≠ "error" := by
    have hcost : costStage [] DEFAULT_CONFIG = .ok ([], [], 1) := by
      unfold costStage
      norm_num [dictGet, asNum, DEFAULT_CONFIG]
    unfold evaluate_policy evalPolicyCore
    rw [hcost, show scoreStage [] DEFAULT_CONFIG = .ok ([], [], 1) from rfl,
      show latencyStage [] DEFAULT_CONFIG = .ok ([], [], 1) from rfl,
      show validationStage [] DEFAULT_CONFIG = .ok ([], [], 1) from rfl]
    norm_num [andStage, DEFAULT_CONFIG]
    decide
  exact ⟨hne, policy_status_classification.1 [] DEFAULT_CONFIG hne⟩

/-- C10. When the score policy is enabled but the metadata carries no
numeric score (the `evaluation` entry is absent, not a record, lacks a
`score` key, or holds `None`), a clean evaluation emits neither a
`low_score` violation nor a `marginal_score` warning, yet the score rule
is still counted in `checked_rules` along with every other enabled rule
family: a missing quality score passes rather than violating. -/
theorem policy_missing_score_passes :
    ∀ (metadata : List (String × PyVal)) (config : PolicyConfig),
      config.enabled = true →
      config.score_policy_enabled = true →
      scoreOf metadata = none →
      (evaluate_policy metadata config).status ≠ "error" →
      ¬"low_score" ∈ (evaluate_policy metadata config).violations ∧
      ¬"marginal_score" ∈ (evaluate_policy metadata config).warnings ∧
      (evaluate_policy metadata config).checked_rules =
        (if config.cost_policy_enabled then 1 else 0) + 1 +
        (if config.latency_policy_enabled then 1 else 0) +
        (if config.validation_policy_enabled && config.require_valid_output then 1 else 0) := by
  intro metadata config hen hsc hnone hne
  rcases evaluate_policy_cases metadata config with ⟨hdis, _⟩ | ⟨v, w, k, _, hcore, hep⟩ |
    ⟨e, _, _, hep⟩
  · rw [hdis] at hen
    exact absurd hen (by simp)
  · unfold evalPolicyCore at hcore
    obtain ⟨x123, x4, h123, h4, hx⟩ := andStage_ok hcore
    obtain ⟨x12, x3, h12, h3, hx123⟩ := andStage_ok h123
    obtain ⟨x1, x2, h1, h2, hx12⟩ := andStage_ok h12
    have hx2 : x2 = ([], [], 1) := by
      rw [scoreStage_none hnone hsc] at h2
      exact (Except.ok.injEq _ _ ▸ h2).symm
    subst hx2
    obtain ⟨v1, w1, k1⟩ := x1
    obtain ⟨v3, w3, k3⟩ := x3
    obtain ⟨v4, w4, k4⟩ := x4
    obtain ⟨hc1, hc2, hc3⟩ := costStage_ok_shape h1
    obtain ⟨hl1, hl2, hl3⟩ := latencyStage_ok_shape h3
    obtain ⟨hv1, hv2, hv3⟩ := validationStage_ok_shape h4
    subst hx12 hx123
    simp only [Prod.mk.injEq, List.append_nil] at hx
    obtain ⟨hv, hw, hk⟩ := hx
    rw [hep]
    refine ⟨?_, ?_, ?_⟩
    · show ¬"low_score" ∈ v
      rw [hv]
      simp only [List.mem_append]
      rintro ((h | h) | h)
      exacts [hc1 h, hl1 h, hv1 h]
    · show ¬"marginal_score" ∈ w
      rw [hw]
      simp only [List.mem_append]
      rintro ((h | h) | h)
      exacts [hc2 h, hl2 h, hv2 h]
    · show k = _
      dsimp only at hc3 hl3 hv3
      rw [hk, hc3, hl3, hv3]
  · rw [hep] at hne
    exact absurd rfl hne

/-- Witness for `policy_missing_score_passes`: empty metadata under the
default config, where no score is present and the status is `pass`. -/
theorem policy_missing_score_passes_witness :
    DEFAULT_CONFIG.enabled = true ∧ DEFAULT_CONFIG.score_policy_enabled = true ∧
    scoreOf [] = none ∧ (evaluate_policy [] DEFAULT_CONFIG).status ≠ "error" ∧
    (¬"low_score" ∈ (evaluate_policy [] DEFAULT_CONFIG).violations ∧
     ¬"marginal_score" ∈ (evaluate_policy [] DEFAULT_CONFIG).warnings ∧
     (evaluate_policy [] DEFAULT_CONFIG).checked_rules =
       (if DEFAULT_CONFIG.cost_policy_enabled then 1 else 0) + 1 +
       (if DEFAULT_CONFIG.latency_policy_enabled then 1 else 0) +
       (if DEFAULT_CONFIG.validation_policy_enabled && DEFAULT_CONFIG.require_valid_output
        then 1 else 0)) := by
  have hne : (evaluate_policy [] DEFAULT_CONFIG).status ≠ "error" := by
    have hcost : costStage [] DEFAULT_CONFIG = .ok ([], [], 1) := by
      unfold costStage
      norm_num [dictGet, asNum, DEFAULT_CONFIG]
    unfold evaluate_policy evalPolicyCore
    rw [hcost, show scoreStage [] DEFAULT_CONFIG = .ok ([], [], 1) from rfl,
      show latencyStage [] DEFAULT_CONFIG = .ok ([], [], 1) from rfl,
      show validationStage [] DEFAULT_CONFIG = .ok ([], [], 1) from rfl]
    norm_num [andStage, DEFAULT_CONFIG]
    decide
  exact ⟨rfl, rfl, rfl, hne,
    policy_missing_score_passes [] DEFAULT_CONFIG rfl rfl rfl hne⟩

/-! ## Planner agent -/

/-- C9. `PlannerAgent.plan` is total (the embedding is a function, so it
never raises); every null/non-string prompt and every prompt whose
characters are all whitespace yields the default `general` capability with
the fixed default reason; every other prompt is classified purely by the
ordered keyword-containment checks (retrieval vocabulary first, then
validation vocabulary, then the default); and identical prompts always
yield identical decisions. -/
theorem planner_total_default_deterministic :
    plannerPlan none = defaultDecision ∧
    (∀ s : String, pyBlank s = true → plannerPlan (some s) = defaultDecision) ∧
    (∀ s : String, pyBlank s = false → plannerPlan (some s) =
      (if retrievalKeywords.any (fun k => pyIn k (pyLower s)) then
        { selected_agent := "retrieval", reason := "Contains retrieval-related keywords" }
       else if criticKeywords.any (fun k => pyIn k (pyLower s)) then
        { selected_agent := "critic", reason := "Contains validation-related keywords" }
       else defaultDecision)) ∧
    (∀ p q : Option String, p = q → plannerPlan p = plannerPlan q) := by
  refine ⟨rfl, ?_, ?_, ?_⟩
  · intro s hb
    simp [plannerPlan, hb]
  · intro s hb
    simp [plannerPlan, hb]
  · intro p q hpq
    rw [hpq]

/-- Witness for `planner_total_default_deterministic`: a whitespace-only
prompt gets the default decision, and a prompt containing `find` routes to
retrieval. -/
theorem planner_total_default_deterministic_witness :
    pyBlank "   " = true ∧ plannerPlan (some "   ") = defaultDecision ∧
    pyBlank "please find this" = false ∧
    plannerPlan (some "please find this") =
      { selected_agent := "retrieval", reason := "Contains retrieval-related keywords" } := by
  refine ⟨by decide, planner_total_default_deterministic.2.1 "   " (by decide), by decide, ?_⟩
  rw [planner_total_default_deterministic.2.2.1 "please find this" (by decide)]
  decide

/-! ## Policy-hint layer -/

/-- C5. For every prompt and every policy snapshot — fail or warn, with
any violations or warnings, under any enforcement/canary configuration and
any hash — `OrchestrationPlanner.plan` returns an enriched decision whose
`selected_agent` and `reason` are exactly those of the base
`PlannerAgent.plan` decision: policy influence only fills the hint,
influenced, enforcement and canary fields and never alters or blocks the
selection. -/
theorem policy_hints_preserve_selection :
    ∀ (h : String → ℕ) (cfg : EnforcementCfg) (prompt : String) (snap : PolicySnapshot),
      ∃ d, orchPlan h cfg true prompt (some snap) = .ok d ∧
        d.selected_agent = (plannerPlan (some prompt)).selected_agent ∧
        d.reason = (plannerPlan (some prompt)).reason := by
  intro h cfg prompt snap
  exact ⟨_, rfl, rfl, rfl⟩

/-- C3. Canary gating is a pure function of the prompt, tier and
percentage: re-evaluating with the same configuration yields the same
enriched decision (in particular the same sampled boolean); whenever the
cost-guard warn path is eligible (rule enabled, canary on, and the
caller's tier — hard-coded `"free"` — matches the canary target tier) the
decision carries the canary record with `eligible = true` and the sampled
outcome computed exactly as `hash(prompt) mod 100 < percentage`, attached
whether or not sampling selected the request. -/
theorem canary_gate_deterministic :
    ∀ (h : String → ℕ) (cfg : EnforcementCfg) (prompt : String) (snap : PolicySnapshot),
      cfg.enforcement_enabled = true →
      cfg.enabled_rules.contains "cost_guard" = true →
      cfg.canary.enabled = true →
      cfg.canary.tier = "free" →
      snap.status = "warn" →
      snap.warnings.contains "elevated_cost" = true →
      orchPlan h cfg true prompt (some snap) = orchPlan h cfg true prompt (some snap) ∧
      ∀ d, orchPlan h cfg true prompt (some snap) = .ok d →
        d.canary = some { eligible := true,
                          sampled := decide (h prompt % 100 < cfg.canary.percentage),
                          tier := "free" } := by
  intro h cfg prompt snap hglob hrule hcan htier hstat hwarn
  refine ⟨rfl, ?_⟩
  intro d hd
  have hb : computePolicyHints h cfg snap prompt =
      (let sampled := decide (h prompt % 100 < cfg.canary.percentage)
       let base : HintBundle := { hint := some "prefer_cost_efficient", influenced := true }
       let meta : CanaryMeta := { eligible := true, sampled := sampled, tier := "free" }
       if sampled then
         { base with
           canary := some meta
           enforcement := some
             { type := "cost_guard", applied := true, reason := "policy_warn_high_cost" } }
       else
         { base with
           canary := some meta
           skipped := true }) := by
    unfold computePolicyHints
    rw [hstat, hwarn]
    have hre : cfg.ruleEnabled "cost_guard" = true := by
      unfold EnforcementCfg.ruleEnabled
      rw [hglob, hrule]
      rfl
    rw [hre, hcan, htier]
    simp
  unfold orchPlan at hd
  dsimp only at hd
  rw [hb] at hd
  by_cases hs : decide (h prompt % 100 < cfg.canary.percentage) = true
  · rw [hs] at hd ⊢
    simp only [if_true, reduceIte] at hd
    rw [Except.ok.injEq] at hd
    subst hd
    rfl
  · rw [Bool.not_eq_true] at hs
    rw [hs] at hd ⊢
    simp only [Bool.false_eq_true, if_false, reduceIte] at hd
    rw [Except.ok.injEq] at hd
    subst hd
    rfl

/-- Witness for `canary_gate_deterministic`: the default enforcement
config (cost_guard enabled, canary on at 5% for tier `free`) with a warn
snapshot carrying `elevated_cost`, prompt `"hello"` and the hash
`String.length`: `5 mod 100 = 5` is not below 5, so the request is
sampled out, and the canary record is still attached with
`eligible = true, sampled = false`. -/
theorem canary_gate_deterministic_witness :
    orchPlan (fun s => s.length) defaultEnforcementCfg true "hello"
        (some { status := "warn", violations := [], warnings := ["elevated_cost"] }) =
      .ok { selected_agent := "general", reason := "Default routing for general queries",
            policy_hint := some "prefer_cost_efficient", policy_influenced := true,
            enforcement := none, enforcement_skipped := true,
            canary := some { eligible := true, sampled := false, tier := "free" } } ∧
    ({ selected_agent := "general", reason := "Default routing for general queries",
       policy_hint := some "prefer_cost_efficient", policy_influenced := true,
       enforcement := none, enforcement_skipped := true,
       canary := some { eligible := true, sampled := false, tier := "free" } } :
      EnrichedRoutingDecision).canary =
      some { eligible := true, sampled := false, tier := "free" } := by
  refine ⟨rfl, ?_⟩
  have happ := (canary_gate_deterministic (fun s => s.length) defaultEnforcementCfg "hello"
    { status := "warn", violations := [], warnings := ["elevated_cost"] }
    rfl rfl rfl rfl rfl rfl).2
    { selected_agent := "general", reason := "Default routing for general queries",
      policy_hint := some "prefer_cost_efficient", policy_influenced := true,
      enforcement := none, enforcement_skipped := true,
      canary := some { eligible := true, sampled := false, tier := "free" } }
    rfl
  exact happ

/-! ## Critic -/

/-- A critical-keyword issue at the head of the list forces HIGH risk. -/
theorem assessRisk_critical_head (i : String) (rest : List String) (g c : ℚ)
    (h : criticalKeywords.any (fun kw => pyIn kw (pyLower i)) = true) :
    assessRisk (i :: rest) g c = .high := by
  unfold assessRisk
  rw [if_pos]
  rw [List.any_cons, h, Bool.true_or]

/-- C6. For every Critic input with zero grounding chunks and a non-null
proposed output (and any metadata), the result has HIGH risk, a BLOCK
recommendation, and `is_safe = false`: the `"No grounding context
available"` issue matches a critical keyword, which forces HIGH and
therefore BLOCK. -/
theorem critic_zero_chunks_blocks :
    ∀ (proposed : String) (metadata : List (String × PyVal)),
      (runStepCore [] (some proposed) metadata).risk_level = .high ∧
      (runStepCore [] (some proposed) metadata).recommendation = .block ∧
      (runStepCore [] (some proposed) metadata).is_safe = false := by
  intro proposed metadata
  have h : assessRisk ("No grounding context available" :: checkMetadataCompleteness metadata) 0
      (computeConfidence 0 0
        ("No grounding context available" :: checkMetadataCompleteness metadata).length) =
      .high :=
    assessRisk_critical_head _ _ _ _ (by decide)
  refine ⟨?_, ?_, ?_⟩
  · show assessRisk ("No grounding context available" :: checkMetadataCompleteness metadata) 0
      (computeConfidence 0 0
        ("No grounding context available" :: checkMetadataCompleteness metadata).length) = .high
    exact h
  · show computeRecommendation
      (assessRisk ("No grounding context available" :: checkMetadataCompleteness metadata) 0
        (computeConfidence 0 0
          ("No grounding context available" :: checkMetadataCompleteness metadata).length))
      ("No grounding context available" :: checkMetadataCompleteness metadata) = .block
    rw [h]
    rfl
  · show decide (computeRecommendation
      (assessRisk ("No grounding context available" :: checkMetadataCompleteness metadata) 0
        (computeConfidence 0 0
          ("No grounding context available" :: checkMetadataCompleteness metadata).length))
      ("No grounding context available" :: checkMetadataCompleteness metadata) = .proceed) = false
    rw [h]
    rfl

/-- C7. In every `CriticResult` produced by either Critic entry point —
the step-based `run_step` pipeline and the post-execution
`validate_from_execution` pipeline — the `is_safe` field equals exactly
the proposition that the recommendation is PROCEED. -/
theorem critic_is_safe_derived :
    (∀ (chunks : List String) (proposed : Option String) (metadata : List (String × PyVal)),
      (runStepCore chunks proposed metadata).is_safe =
        decide ((runStepCore chunks proposed metadata).recommendation = .proceed)) ∧
    (∀ er : ExecutionResult,
      (validateFromExecution er).is_safe =
        decide ((validateFromExecution er).recommendation = .proceed)) :=
  ⟨fun _ _ _ => rfl, fun _ => rfl⟩

/-! ## Plan executor -/

/-- `_execute_step` copies the step's id and role into its result in every
branch. -/
theorem executeStep_matches (run : String → ServiceReq → Except String ServiceResp)
    (ctx : ServiceReq) (st : PlanStep) (prev : List StepResult) :
    stepMatches (executeStep run ctx st prev) st := by
  unfold executeStep
  cases h : resolveAgent st.agent_role with
  | none => exact ⟨rfl, rfl⟩
  | some a =>
    dsimp only
    cases h2 : run a { query := ctx.query, context := enrichContext ctx.context prev } with
    | ok resp => exact ⟨rfl, rfl⟩
    | error e => exact ⟨rfl, rfl⟩

/-- Behaviour of the execution loop under the real (non-crashing) step
runner: it finishes with the accumulated results extended by results that
correspond one-to-one to a prefix of the remaining steps, the failure flag
is set exactly when one of the new results is FAILED, and only the last
new result can be FAILED (fail-fast). -/
theorem execLoop_pure_spec (run : String → ServiceReq → Except String ServiceResp)
    (ctx : ServiceReq) :
    ∀ (steps : List PlanStep) (acc : List StepResult),
      ∃ news flag, execLoop (pureRunner run) ctx steps acc = .done (acc ++ news) flag ∧
        flag = news.any (fun sr => decide (sr.status = .failed)) ∧
        List.Forall₂ stepMatches news (steps.take news.length) ∧
        (∀ sr ∈ news.dropLast, sr.status ≠ .failed) := by
  intro steps
  induction steps with
  | nil =>
    intro acc
    exact ⟨[], false, by simp [execLoop], by simp, by simp, by simp⟩
  | cons st rest ih =>
    intro acc
    by_cases hf : (executeStep run ctx st acc).status = .failed
    · refine ⟨[executeStep run ctx st acc], true, ?_, ?_, ?_, ?_⟩
      · simp [execLoop, pureRunner, hf]
      · simp [hf]
      · simpa using executeStep_matches run ctx st acc
      · simp
    · obtain ⟨news, flag, hloop, hflag, hmat, hdrop⟩ := ih (acc ++ [executeStep run ctx st acc])
      refine ⟨executeStep run ctx st acc :: news, flag, ?_, ?_, ?_, ?_⟩
      · rw [show execLoop (pureRunner run) ctx (st :: rest) acc =
            execLoop (pureRunner run) ctx rest (acc ++ [executeStep run ctx st acc]) by
          simp [execLoop, pureRunner, hf]]
        rw [hloop]
        simp
      · rw [hflag]
        simp [hf]
      · rw [List.length_cons, List.take_succ_cons]
        exact List.Forall₂.cons (executeStep_matches run ctx st acc) hmat
      · cases news with
        | nil => simp
        | cons n ns =>
          intro sr hsr
          rw [List.dropLast_cons₂] at hsr
          rcases List.mem_cons.mp hsr with hsr | hsr
          · rw [hsr]
            exact hf
          · exact hdrop sr hsr

/-- C4. The plan executor is fail-fast: for every agent behaviour and
plan, the overall status is FAILED exactly when some recorded step result
is FAILED, the recorded results correspond one-to-one to a prefix of the
plan's steps (no step after the first failure is executed), and only the
last recorded result can be FAILED. In particular a 2-step plan whose
first step succeeds and whose second step names an unregistered capability
role yields exactly 2 step results — step 1 COMPLETED, step 2 FAILED with
error `"No agent found for role: <role>"` (the no-agent/capability-found
error) — and overall status FAILED. -/
theorem plan_failfast_spec :
    (∀ (run : String → ServiceReq → Except String ServiceResp) (ctx : ServiceReq)
       (s1 s2 : PlanStep) (pid tt rat cx : String),
      (executeStep run ctx s1 []).status = .completed →
      resolveAgent s2.agent_role = none →
      executePlanRun run
          { plan_id := pid, task_type := tt, rationale := rat, steps := [s1, s2],
            estimated_complexity := cx } ctx =
        .ok { plan_id := pid, status := .failed,
              step_results := [executeStep run ctx s1 [],
                { step_id := s2.step_id, agent_role := s2.agent_role, status := .failed,
                  output := none,
                  error := some ("No agent found for role: " ++ s2.agent_role),
                  metadata := [("intent", .str s2.intent)] }],
              final_output := none }) ∧
    (∀ (run : String → ServiceReq → Except String ServiceResp) (plan : ExecutionPlan)
       (ctx : ServiceReq) (r : ExecutionResult),
      executePlanRun run plan ctx = .ok r →
      ((r.status = .failed ↔ r.step_results.any (fun sr => decide (sr.status = .failed)) = true) ∧
       r.step_results.length ≤ plan.steps.length ∧
       List.Forall₂ stepMatches r.step_results (plan.steps.take r.step_results.length) ∧
       (∀ sr ∈ r.step_results.dropLast, sr.status ≠ .failed))) := by
  constructor
  · intro run ctx s1 s2 pid tt rat cx hs1 hs2
    have hstep2 : executeStep run ctx s2 [executeStep run ctx s1 []] =
        { step_id := s2.step_id, agent_role := s2.agent_role, status := .failed,
          output := none,
          error := some ("No agent found for role: " ++ s2.agent_role),
          metadata := [("intent", .str s2.intent)] } := by
      unfold executeStep
      rw [hs2]
    have hloop : execLoop (pureRunner run) ctx [s1, s2] [] =
        .done [executeStep run ctx s1 [],
          { step_id := s2.step_id, agent_role := s2.agent_role, status := .failed,
            output := none,
            error := some ("No agent found for role: " ++ s2.agent_role),
            metadata := [("intent", .str s2.intent)] }] true := by
      rw [execLoop, pureRunner]
      dsimp only
      rw [if_neg (by rw [hs1]; decide)]
      rw [execLoop, pureRunner]
      dsimp only
      rw [List.nil_append, hstep2]
      rw [if_pos rfl]
      rfl
    unfold executePlanRun executePlanModel
    rw [hloop]
  · intro run plan ctx r hr
    obtain ⟨news, flag, hloop, hflag, hmat, hdrop⟩ := execLoop_pure_spec run ctx plan.steps []
    unfold executePlanRun executePlanModel at hr
    rw [hloop] at hr
    have hlen : news.length ≤ plan.steps.length := by
      have := hmat.length_eq
      rw [List.length_take] at this
      omega
    cases flag with
    | false =>
      rw [List.nil_append] at hr
      dsimp only at hr
      rw [Except.ok.injEq] at hr
      subst hr
      refine ⟨?_, hlen, hmat, hdrop⟩
      rw [← hflag]
      simp
    | true =>
      rw [List.nil_append] at hr
      dsimp only at hr
      rw [Except.ok.injEq] at hr
      subst hr
      refine ⟨?_, hlen, hmat, hdrop⟩
      rw [← hflag]
      simp

/-- Witness for `plan_failfast_spec`: the repository's own executor test
shape — step 1 routed to `general` with a mocked successful agent, step 2
naming the unregistered role `unknown_agent`. -/
theorem plan_failfast_spec_witness :
    executePlanRun
        (fun a _ => if a = "general" then .ok { answer := "Mock Success", metadata := [] }
                    else .error "unreachable")
        { plan_id := "p1", task_type := "knowledge_query", rationale := "Test Plan",
          steps := [{ step_id := 1, agent_role := "general", intent := "say_hello",
                      description := "Say hello" },
                    { step_id := 2, agent_role := "unknown_agent", intent := "fail_test",
                      description := "Should fail" }],
          estimated_complexity := "unknown" }
        { query := "Test" } =
      .ok { plan_id := "p1", status := .failed,
            step_results := [
              { step_id := 1, agent_role := "general", status := .completed,
                output := some "Mock Success", error := none, metadata := [] },
              { step_id := 2, agent_role := "unknown_agent", status := .failed,
                output := none,
                error := some ("No agent found for role: " ++ "unknown_agent"),
                metadata := [("intent", .str "fail_test")] }],
            final_output := none } := by
  have happ := plan_failfast_spec.1
    (fun a _ => if a = "general" then .ok { answer := "Mock Success", metadata := [] }
                else .error "unreachable")
    { query := "Test" }
    { step_id := 1, agent_role := "general", intent := "say_hello",
      description := "Say hello" }
    { step_id := 2, agent_role := "unknown_agent", intent := "fail_test",
      description := "Should fail" }
    "p1" "knowledge_query" "Test Plan" "unknown"
    rfl rfl
  exact happ

/-! ## Error propagation (plan executor vs. orchestrate) -/

/-- C1 counterexample. The claim says a crash in `execute_plan`'s outer
loop is re-raised rather than returned, and that `orchestrate` never
re-raises. Both conjuncts fail on the code at these concrete inputs: a
step runner that crashes with `"boom"` makes `execute_plan` RETURN (`.ok`)
an `ExecutionResult` with status FAILED and final output
`"Execution crashed: boom"` (source lines 321-324 catch the crash), while
`orchestrate` with an analysis sub-call that raises `"analysis crashed"`
propagates that exception to its caller (`raise` at source line 256). -/
theorem error_propagation_counterexample :
    executePlanModel (fun _ _ _ => .error "boom")
        { plan_id := "p1", task_type := "knowledge_query", rationale := "test",
          steps := [{ step_id := 1, agent_role := "general", intent := "say_hello",
                      description := "Say hello" }],
          estimated_complexity := "unknown" }
        { query := "Test" } =
      .ok { plan_id := "p1", status := .failed, step_results := [],
            final_output := some "Execution crashed: boom" } ∧
    orchestrateModel (.ok plannerFallback) (.ok "")
        (.ok { agent_name := "general", output := "fine", confidence := 1 / 2, metadata := [] })
        (.ok ()) (.ok ())
        true (.error "analysis crashed")
        true (.ok { confidence_delta := 0, dump := [] })
        true (.ok []) =
      .error "analysis crashed" :=
  ⟨rfl, rfl⟩

/-- C1 amended. The plan executor's outer loop never re-raises: for every
step runner (crashing or not), plan and request it returns a result, and a
crash of the loop body is converted into a returned `ExecutionResult` with
status FAILED, the results accumulated so far, and final output
`"Execution crashed: <error>"`. The simple `orchestrate` flow is the path
that re-raises: an exception from the uncontained analysis stage (and
likewise validation/evaluation) propagates to the caller; an agent timeout
or agent exception also ends in a re-raise, because the degraded-result
constructions in the inner handlers themselves raise a pydantic
`ValidationError` (`AgentResult` requires `agent` and has no
`agent_name`/`confidence` fields) that escapes to the outer handler.
Only planner failures and session-memory failures are contained: with an
agent call that returned a result and healthy post-processing stages,
`orchestrate` returns normally whatever the planner and memory oracles
did. -/
theorem error_propagation_amended :
    (∀ (stepRunner : ServiceReq → PlanStep → List StepResult → Except String StepResult)
       (plan : ExecutionPlan) (ctx : ServiceReq),
      ∃ r, executePlanModel stepRunner plan ctx = .ok r) ∧
    (∀ (e : String) (plan : ExecutionPlan) (ctx : ServiceReq),
      plan.steps ≠ [] →
      executePlanModel (fun _ _ _ => .error e) plan ctx =
        .ok { plan_id := plan.plan_id, status := .failed, step_results := [],
              final_output := some ("Execution crashed: " ++ e) }) ∧
    (∀ (planner : Except String EnrichedRoutingDecision) (memRead : Except String String)
       (r : ExecAgentResult) (w1 w2 : Except String Unit) (e : String)
       (vf : Bool) (validation : Except String ValidationOut)
       (ef : Bool) (evaluation : Except String (List (String × PyVal))),
      orchestrateModel planner memRead (.ok r) w1 w2 true (.error e) vf validation
        ef evaluation = .error e) ∧
    (∀ (planner : Except String EnrichedRoutingDecision) (memRead : Except String String)
       (w1 w2 : Except String Unit)
       (af : Bool) (analysis : Except String (List (String × PyVal)))
       (vf : Bool) (validation : Except String ValidationOut)
       (ef : Bool) (evaluation : Except String (List (String × PyVal))),
      orchestrateModel planner memRead .timeout w1 w2 af analysis vf validation
        ef evaluation = .error agentResultValidationError ∧
      ∀ e2, orchestrateModel planner memRead (.exc e2) w1 w2 af analysis vf validation
        ef evaluation = .error agentResultValidationError) ∧
    (∀ (planner : Except String EnrichedRoutingDecision) (memRead : Except String String)
       (r : ExecAgentResult) (w1 w2 : Except String Unit)
       (a : List (String × PyVal)) (v : ValidationOut) (ev : List (String × PyVal)),
      ∃ res, orchestrateModel planner memRead (.ok r) w1 w2 true (.ok a) true (.ok v)
        true (.ok ev) = .ok res) := by
  refine ⟨?_, ?_, ?_, ?_, ?_⟩
  · intro stepRunner plan ctx
    unfold executePlanModel
    cases execLoop stepRunner ctx plan.steps [] with
    | done acc failedFlag => cases failedFlag <;> exact ⟨_, rfl⟩
    | crashed acc e => exact ⟨_, rfl⟩
  · intro e plan ctx hne
    unfold executePlanModel
    cases hsteps : plan.steps with
    | nil => exact absurd hsteps hne
    | cons st rest => rw [execLoop]
  · intro planner memRead r w1 w2 e vf validation ef evaluation
    rfl
  · intro planner memRead w1 w2 af analysis vf validation ef evaluation
    exact ⟨rfl, fun _ => rfl⟩
  · intro planner memRead r w1 w2 a v ev
    exact ⟨_, rfl⟩

/-- Witness for `error_propagation_amended`: the non-empty single-step
plan from the counterexample scenario, crashed with `"boom"`. -/
theorem error_propagation_amended_witness :
    ({ plan_id := "p1", task_type := "knowledge_query", rationale := "test",
       steps := [{ step_id := 1, agent_role := "general", intent := "say_hello",
                   description := "Say hello" }],
       estimated_complexity := "unknown" } : ExecutionPlan).steps ≠ [] ∧
    executePlanModel (fun _ _ _ => .error "boom")
        { plan_id := "p1", task_type := "knowledge_query", rationale := "test",
          steps := [{ step_id := 1, agent_role := "general", intent := "say_hello",
                      description := "Say hello" }],
          estimated_complexity := "unknown" }
        { query := "Test" } =
      .ok { plan_id := "p1", status := .failed, step_results := [],
            final_output := some ("Execution crashed: " ++ "boom") } :=
  ⟨by decide, error_propagation_amended.2.1 "boom"
    { plan_id := "p1", task_type := "knowledge_query", rationale := "test",
      steps := [{ step_id := 1, agent_role := "general", intent := "say_hello",
                  description := "Say hello" }],
      estimated_complexity := "unknown" }
    { query := "Test" } (by decide)⟩

/-! ## Trace collector -/

/-- C2 counterexample. The claim says that when the sink's `emit` raises,
the evaluation store's save is still attempted. On the code it is not: an
`emit` exception jumps straight to `capture`'s single outer handler
(collector.py lines 157-159), so with a failing sink and healthy
save/audit/publish oracles the save, audit and publish stages are all
skipped (`saveAttempted = false`) — although `capture` indeed does not
raise (it returns `.ok`). -/
theorem capture_stages_counterexample :
    captureModel true (.error "sink down") (.ok ()) (.ok ()) (.ok ()) =
      .ok { emitAttempted := true, emitOk := false, saveAttempted := false,
            auditAttempted := false, publishAttempted := false } :=
  rfl

/-- C2 amended. `TraceCollector.capture` never raises, even when the
sink's `emit` raises; but `emit` is guarded only by `capture`'s single
outer handler, so an `emit` exception skips the evaluation save, the
audit, and the publish stages instead of leaving them attempted. Only the
evaluation save and the publish stages are independently wrapped: when
`emit` succeeds, the save is attempted and — whatever the save's own
outcome — the audit stage still runs. -/
theorem capture_stages_amended :
    ∀ (emit save audit publish : Except String Unit),
      (∃ log, captureModel true emit save audit publish = .ok log) ∧
      (∀ e, emit = .error e →
        captureModel true emit save audit publish =
          .ok { emitAttempted := true, emitOk := false, saveAttempted := false,
                auditAttempted := false, publishAttempted := false }) ∧
      (emit = .ok () →
        ∀ log, captureModel true emit save audit publish = .ok log →
          log.saveAttempted = true ∧ log.auditAttempted = true) := by
  intro emit save audit publish
  refine ⟨?_, ?_, ?_⟩
  · unfold captureModel
    cases emit with
    | error e => exact ⟨_, rfl⟩
    | ok u =>
      cases audit with
      | error e2 => exact ⟨_, rfl⟩
      | ok u2 => exact ⟨_, rfl⟩
  · intro e he
    subst he
    rfl
  · intro hok log hlog
    subst hok
    unfold captureModel at hlog
    cases audit with
    | error e2 =>
      simp at hlog
      subst hlog
      exact ⟨rfl, rfl⟩
    | ok u2 =>
      simp at hlog
      subst hlog
      exact ⟨rfl, rfl⟩

/-- Witness for `capture_stages_amended`: a failing sink with healthy
other stages — capture returns rather than raising, and the save was not
attempted. -/
theorem capture_stages_amended_witness :
    (Except.error "sink down" : Except String Unit) = .error "sink down" ∧
    captureModel true (.error "sink down") (.ok ()) (.ok ()) (.ok ()) =
      .ok { emitAttempted := true, emitOk := false, saveAttempted := false,
            auditAttempted := false, publishAttempted := false } :=
  ⟨rfl, (capture_stages_amended (.error "sink down") (.ok ()) (.ok ()) (.ok ())).2.1
    "sink down" rfl⟩
